import Mathlib

/-!
Shallow embedding of the Fetcher HTTP-client wrapper (src/index.ts, with the
legacy variant in src/unnamed/part_000) and verification of the frozen claims.

The transport (platform fetch) and the query-string serializer are opaque
collaborators in the source; they are modelled as parameters.  Asynchronous
settlement is modelled by an outcome type: the promise chain of execute is a
function from the transport outcome to the settled result, and side effects of
the observe-only interceptors are modelled as logs they emit.
-/

namespace Fetcher

/-- Ordered header multi-map: the `Headers` object of the platform is used only
via `append`, so it is an ordered list of (name, value) entries. -/
abbrev HeadersMap := List (String × String)

/-- A caller-supplied header value (src/index.ts line 212): either a single
string or a sequence of strings. -/
inductive HeaderValue where
  | str (s : String)
  | seq (l : List String)
deriving DecidableEq

/-- Header building loop of execute (src/index.ts lines 109-120): iterate the
keys of the caller header object in order; a string value appends one entry,
a sequence value appends one entry per element in order. -/
def buildHeaders (headersObject : List (String × HeaderValue)) : HeadersMap :=
  headersObject.foldl
    (fun acc kv =>
      match kv.2 with
      | .str s => acc ++ [(kv.1, s)]
      | .seq l => acc ++ l.map (fun v => (kv.1, v)))
    []

/-- The regex replace on the path (src/index.ts line 129): url.replace of the
pattern matching one leading slash by the empty string removes at most ONE
leading slash. -/
def stripOneLeadingSlash : List Char → List Char
  | [] => []
  | c :: rest => if c = '/' then rest else c :: rest

/-- The regex replace on the base (src/index.ts line 129): baseUrl.replace of
the pattern matching one trailing slash removes at most ONE trailing slash. -/
def stripOneTrailingSlash (l : List Char) : List Char :=
  (stripOneLeadingSlash l.reverse).reverse

/-- URL composition of execute before the query string is appended
(src/index.ts lines 128-129): the base (empty string when null) with one
trailing slash stripped, then a slash, then the path with one leading slash
stripped. -/
def joinUrl (baseUrl : Option String) (path : String) : String :=
  String.mk (stripOneTrailingSlash (baseUrl.getD "").data ++ '/' :: stripOneLeadingSlash path.data)

/-- Query-string append (src/index.ts line 131): the serialized string is
appended after a question mark only when it is non-empty (JS truthiness of a
string). -/
def appendQuery (url paramString : String) : String :=
  if paramString = "" then url else url ++ "?" ++ paramString

/-- The Request value of the source (src/index.ts lines 22-27); params and
body are opaque to the client, so their types are parameters. -/
structure Request (Params Body : Type) where
  url : String
  headers : HeadersMap
  params : Params
  body : Option Body
deriving DecidableEq

/-- The request assembled at src/index.ts line 132, after URL composition and
query append, before the interceptor fold. -/
def initialRequest (baseUrl : Option String) (serializer : Params → String)
    (headersObject : List (String × HeaderValue)) (path : String)
    (params : Params) (body : Option Body) : Request Params Body :=
  { url := appendQuery (joinUrl baseUrl path) (serializer params)
    headers := buildHeaders headersObject
    params := params
    body := body }

/-- Request-construction phase of execute (src/index.ts lines 108-135):
build headers, compose the URL, append the query string, assemble the request
and fold it through the registered request interceptors in registration
order. -/
def buildRequestPhase (baseUrl : Option String) (serializer : Params → String)
    (headersObject : List (String × HeaderValue)) (path : String)
    (params : Params) (body : Option Body)
    (requestInterceptors : List (Request Params Body → Request Params Body)) :
    Request Params Body :=
  requestInterceptors.foldl (fun r i => i r)
    (initialRequest baseUrl serializer headersObject path params body)

/-- The Response value of the source (src/index.ts lines 234-238): numeric
status, decoded body, headers of the transport response. -/
structure Response (D : Type) where
  status : Nat
  data : D
  headers : HeadersMap
deriving DecidableEq

/-- The settled state of the cancelable handle: resolved or rejected. -/
inductive Settled (R E : Type) where
  | resolved (value : R)
  | rejected (value : E)
deriving DecidableEq

/-- The value a rejection carries: either the Response-shaped ErrorResponse of
the status-classified branch, or the raw fault value forwarded by a catch
(src/index.ts lines 201-202). -/
inductive Rejection (D E : Type) where
  | errorResponse (r : Response D)
  | fault (e : E)
deriving DecidableEq

/-- Outcome of the transport interaction seen by the promise chain of execute:
the fetch promise rejected (line 202 catch), the body-decoding promise
rejected (line 201 catch), or both completed with an ok flag, status, headers
and a decoded body. -/
inductive FetchOutcome (D E : Type) where
  | fetchFault (e : E)
  | decodeFault (status : Nat) (e : E)
  | completed (ok : Bool) (status : Nat) (headers : HeadersMap) (data : D)
deriving DecidableEq

/-- Observe-only interceptor loop (src/index.ts lines 186-188 and 196-198):
each interceptor is called on the SAME value in registration order; the model
lets an interceptor emit a side-effect log and return a replacement value, and
the loop keeps the logs while the returned value is discarded (the source
never reassigns the looped-over response). -/
def runObservers (interceptors : List (α → List String × α)) (x : α) : List String :=
  interceptors.foldl (fun log i => log ++ (i x).1) []

/-- Settlement logic of execute for a given transport outcome (src/index.ts
lines 152-205): a fault of fetch or of the decoding promise rejects with the
raw fault value; a completed call is classified by
ok AND status < 300 AND status >= 200 (line 180) into a resolved Response or
a rejected ErrorResponse, running the matching observe-only interceptor chain
first.  The first component is the concatenated side-effect log of the
interceptors that were invoked. -/
def executeSettle (responseInterceptors errorInterceptors : List (Response D → List String × Response D)) :
    FetchOutcome D E → List String × Settled (Response D) (Rejection D E)
  | .fetchFault e => ([], .rejected (.fault e))
  | .decodeFault _ e => ([], .rejected (.fault e))
  | .completed ok status headers data =>
    if ok && decide (status < 300) && decide (status ≥ 200) then
      let response : Response D := ⟨status, data, headers⟩
      (runObservers responseInterceptors response, .resolved response)
    else
      let errorResponse : Response D := ⟨status, data, headers⟩
      (runObservers errorInterceptors errorResponse, .rejected (.errorResponse errorResponse))

/-- The per-call responseType option (src/index.ts lines 242-244). -/
inductive ResponseType where
  | JSON | FORM_DATA | TEXT | BLOB | ARRAY_BUFFER
deriving DecidableEq

/-- The decoding form chosen for the body. -/
inductive DecodeKind where
  | json | formData | text | blob | arrayBuffer
deriving DecidableEq

/-- Substring test on character lists, modelling the JS String.includes used
on the Content-Type header value (src/index.ts line 174). -/
def containsSub : List Char → List Char → Bool
  | [], needle => needle.isPrefixOf []
  | c :: t, needle => needle.isPrefixOf (c :: t) || containsSub t needle

/-- Body-decoding selection of execute (src/index.ts lines 154-178): an
explicit responseType wins; otherwise the Content-Type header (absent header
modelled as none, which the optional chaining of the source turns into the
text branch) selects json when it contains the substring json, else text. -/
def selectDecode (responseType : Option ResponseType) (contentType : Option String) : DecodeKind :=
  match responseType with
  | some .JSON => .json
  | some .FORM_DATA => .formData
  | some .TEXT => .text
  | some .BLOB => .blob
  | some .ARRAY_BUFFER => .arrayBuffer
  | none =>
    match contentType with
    | some ct => if containsSub ct.data "json".data then .json else .text
    | none => .text

/-- Timer arming condition of execute (src/index.ts line 141): the literal
source condition is timeout >= 0, a JS number modelled as Int.  The source
comment on line 142 states the intent: never timeout if timeout is zero. -/
def timerArmed (timeout : Int) : Bool := decide (0 ≤ timeout)

/-- State of the in-flight call for the cancellation and timeout machinery of
execute (src/index.ts lines 139-151): whether the armed setTimeout is still
pending, how many times abortController.abort() has been invoked, whether the
shared signal is in the aborted state, and whether the handle was rejected
with the timeout indication. -/
structure ExecState where
  timerPending : Bool
  abortCalls : Nat
  signalAborted : Bool
  rejectedTimeout : Bool
deriving DecidableEq

/-- Initial in-flight state for an effective timeout (src/index.ts lines
140-147): the timer is pending exactly when the arming condition holds, no
abort has been triggered, nothing rejected. -/
def initExecState (timeout : Int) : ExecState :=
  { timerPending := timerArmed timeout
    abortCalls := 0
    signalAborted := false
    rejectedTimeout := false }

/-- The onCancel handler (src/index.ts lines 148-151): it calls
abortController.abort(), putting the signal into the aborted state, and
clears the pending timer. -/
def cancelStep (s : ExecState) : ExecState :=
  { s with
    abortCalls := s.abortCalls + 1
    signalAborted := true
    timerPending := false }

/-- The setTimeout callback (src/index.ts lines 143-146): it runs only while
the timer is still pending (a cleared timer never fires); it aborts the
controller and rejects the handle with the timeout indication. -/
def timerFireStep (s : ExecState) : ExecState :=
  if s.timerPending then
    { s with
      abortCalls := s.abortCalls + 1
      signalAborted := true
      rejectedTimeout := true
      timerPending := false }
  else s

/-- The aborted flag of the signal of a freshly constructed AbortController
(src/index.ts line 125) is false. -/
def newAbortControllerAborted : Bool := false

/-- Pre-flight check of execute (src/index.ts lines 136-138): when the signal
is aborted the call fails synchronously with the canceled indication, before
the network call; otherwise the built request goes on to the transport. -/
def preflightGuard (aborted : Bool) (request : Request Params Body) :
    Except String (Request Params Body) :=
  if aborted then .error "canceled" else .ok request

/-- Lines 125-138 of execute: the AbortController is constructed inside the
call; between construction and the check only the URL composition, the
serializer and the request-interceptor fold run, and none of them receives
the controller, so the flag read by the check is that of the fresh
controller. -/
def executePreflight (baseUrl : Option String) (serializer : Params → String)
    (headersObject : List (String × HeaderValue)) (path : String)
    (params : Params) (body : Option Body)
    (requestInterceptors : List (Request Params Body → Request Params Body)) :
    Except String (Request Params Body) :=
  preflightGuard newAbortControllerAborted
    (buildRequestPhase baseUrl serializer headersObject path params body requestInterceptors)

/-- Header building loop of the legacy execute (src/unnamed/part_000 lines
107-118), translated independently from that file: same iteration over the
caller header object, appending one entry per string value and one entry per
element of a sequence value. -/
def legacyBuildHeaders (headersObject : List (String × HeaderValue)) : HeadersMap :=
  headersObject.foldl
    (fun acc kv =>
      match kv.2 with
      | .str s => acc ++ [(kv.1, s)]
      | .seq l => acc ++ l.map (fun v => (kv.1, v)))
    []

/-- Legacy path replace (src/unnamed/part_000 line 132): removes at most one
leading slash. -/
def legacyStripOneLeadingSlash : List Char → List Char
  | [] => []
  | c :: rest => if c = '/' then rest else c :: rest

/-- Legacy base replace (src/unnamed/part_000 line 132): removes at most one
trailing slash. -/
def legacyStripOneTrailingSlash (l : List Char) : List Char :=
  (legacyStripOneLeadingSlash l.reverse).reverse

/-- Legacy URL composition (src/unnamed/part_000 lines 131-132). -/
def legacyJoinUrl (baseUrl : Option String) (path : String) : String :=
  String.mk (legacyStripOneTrailingSlash (baseUrl.getD "").data ++
    '/' :: legacyStripOneLeadingSlash path.data)

/-- Legacy query append (src/unnamed/part_000 line 134). -/
def legacyAppendQuery (url paramString : String) : String :=
  if paramString = "" then url else url ++ "?" ++ paramString

/-- Legacy request assembly (src/unnamed/part_000 line 135). -/
def legacyInitialRequest (baseUrl : Option String) (serializer : Params → String)
    (headersObject : List (String × HeaderValue)) (path : String)
    (params : Params) (body : Option Body) : Request Params Body :=
  { url := legacyAppendQuery (legacyJoinUrl baseUrl path) (serializer params)
    headers := legacyBuildHeaders headersObject
    params := params
    body := body }

/-- Request-construction phase of the legacy execute (src/unnamed/part_000
lines 106-138): headers, URL, query string, request assembly, interceptor
fold.  The timer side effect the legacy variant starts at lines 124-130 does
not touch the request value and is not part of this phase. -/
def legacyBuildRequestPhase (baseUrl : Option String) (serializer : Params → String)
    (headersObject : List (String × HeaderValue)) (path : String)
    (params : Params) (body : Option Body)
    (requestInterceptors : List (Request Params Body → Request Params Body)) :
    Request Params Body :=
  requestInterceptors.foldl (fun r i => i r)
    (legacyInitialRequest baseUrl serializer headersObject path params body)

/-- Removal of ALL leading slashes, as the wording of claim C2 demands; this
formalizes the claim, it is not source behavior. -/
def stripAllLeadingSlash : List Char → List Char
  | [] => []
  | c :: rest => if c = '/' then stripAllLeadingSlash rest else c :: rest

/-- Removal of ALL trailing slashes, as the wording of claim C2 demands. -/
def stripAllTrailingSlash (l : List Char) : List Char :=
  (stripAllLeadingSlash l.reverse).reverse

/-- The joined URL claim C2 predicts: the content of the base (every trailing
slash stripped) joined to the content of the path (every leading slash
stripped) with exactly one slash at the join point. -/
def claimJoinUrl (baseUrl : Option String) (path : String) : String :=
  String.mk (stripAllTrailingSlash (baseUrl.getD "").data ++
    '/' :: stripAllLeadingSlash path.data)

/-- A request interceptor that appends a tag header, used to state the
interceptor-ordering example of the spec. -/
def addTagInterceptor (t : String) : Request Params Body → Request Params Body :=
  fun r => { r with headers := r.headers ++ [("tag", t)] }

/- Helper lemmas, shared by the claim theorems. -/

theorem runObservers_eq_join {α : Type} (ints : List (α → List String × α)) (x : α) :
    runObservers ints x = (ints.map (fun i => (i x).1)).flatten := by
  suffices h : ∀ init : List String,
      ints.foldl (fun log i => log ++ (i x).1) init =
        init ++ (ints.map (fun i => (i x).1)).flatten by
    simpa [runObservers] using h []
  induction ints with
  | nil => intro init; simp
  | cons i t ih => intro init; simp [List.foldl_cons, ih]

theorem successCond_iff (ok : Bool) (status : Nat) :
    (ok && decide (status < 300) && decide (status ≥ 200)) = true ↔
      (ok = true ∧ 200 ≤ status ∧ status < 300) := by
  simp only [Bool.and_eq_true, decide_eq_true_eq, ge_iff_le]
  tauto

theorem stripAllLeadingSlash_of_head (l : List Char) (h : l.head? ≠ some '/') :
    stripAllLeadingSlash l = l := by
  cases l with
  | nil => rfl
  | cons c rest =>
    simp only [List.head?_cons, ne_eq, Option.some.injEq] at h
    simp [stripAllLeadingSlash, h]

theorem stripAll_eq_stripOne_leading (l : List Char)
    (h : (stripOneLeadingSlash l).head? ≠ some '/') :
    stripAllLeadingSlash l = stripOneLeadingSlash l := by
  cases l with
  | nil => rfl
  | cons c rest =>
    by_cases hc : c = '/'
    · subst hc
      have hrest : (stripOneLeadingSlash ('/' :: rest)) = rest := by
        simp [stripOneLeadingSlash]
      rw [hrest] at h
      rw [hrest]
      simp only [stripAllLeadingSlash, if_pos rfl]
      exact stripAllLeadingSlash_of_head rest h
    · simp [stripAllLeadingSlash, stripOneLeadingSlash, hc]

theorem stripAll_eq_stripOne_trailing (l : List Char)
    (h : (stripOneTrailingSlash l).getLast? ≠ some '/') :
    stripAllTrailingSlash l = stripOneTrailingSlash l := by
  unfold stripOneTrailingSlash at h
  rw [List.getLast?_reverse] at h
  unfold stripAllTrailingSlash stripOneTrailingSlash
  rw [stripAll_eq_stripOne_leading l.reverse h]

/- Claim theorems. -/

/-- C1: for every completed network call, execute settles by status
classification: the handle resolves with the Response of status, data and
headers exactly when the transport ok flag is set and the status lies in
[200,300); otherwise the ErrorResponse of the same status, data and headers
is built, every error interceptor runs on it in registration order (its log),
and the handle rejects with that ErrorResponse. -/
theorem executeSettle_classifies {D E : Type}
    (rI eI : List (Response D → List String × Response D))
    (ok : Bool) (status : Nat) (headers : HeadersMap) (data : D) :
    ((executeSettle (E := E) rI eI (.completed ok status headers data)).2 =
        .resolved ⟨status, data, headers⟩ ↔
      (ok = true ∧ 200 ≤ status ∧ status < 300)) ∧
    (¬(ok = true ∧ 200 ≤ status ∧ status < 300) →
      executeSettle (E := E) rI eI (.completed ok status headers data) =
        (runObservers eI ⟨status, data, headers⟩,
          Settled.rejected (.errorResponse ⟨status, data, headers⟩))) := by
  by_cases h : ok = true ∧ 200 ≤ status ∧ status < 300
  · have hb : (ok && decide (status < 300) && decide (status ≥ 200)) = true :=
      (successCond_iff ok status).mpr h
    exact ⟨by simp [executeSettle, hb, h], fun hc => absurd h hc⟩
  · have hb : (ok && decide (status < 300) && decide (status ≥ 200)) = false := by
      rw [Bool.eq_false_iff]
      intro ht
      exact h ((successCond_iff ok status).mp ht)
    exact ⟨by simp [executeSettle, hb, h], fun _ => by simp [executeSettle, hb]⟩

/-- C1 witness: a completed call with ok flag false and status 404 rejects
with an ErrorResponse of status 404 after the (empty) error chain ran. -/
theorem executeSettle_classifies_witness :
    ¬((false : Bool) = true ∧ 200 ≤ 404 ∧ 404 < 300) ∧
    executeSettle (D := Nat) (E := String) [] []
        (.completed false 404 [] 0) =
      (runObservers ([] : List (Response Nat → List String × Response Nat))
          (⟨404, 0, []⟩ : Response Nat),
        Settled.rejected (.errorResponse ⟨404, 0, []⟩)) :=
  ⟨by decide, (executeSettle_classifies [] [] false 404 [] 0).2 (by decide)⟩

/-- C2 counterexample: a base with two trailing slashes keeps one of them,
so the composed URL does not have exactly one slash at the join point; the
source strips at most one slash from each side. -/
theorem joinUrl_counterexample :
    joinUrl (some "https://api.test//") "/v1/x" = "https://api.test//v1/x" ∧
    claimJoinUrl (some "https://api.test//") "/v1/x" = "https://api.test/v1/x" ∧
    joinUrl (some "https://api.test//") "/v1/x" ≠
      claimJoinUrl (some "https://api.test//") "/v1/x" := by decide

/-- C2 amended: when the caller supplies at most one trailing slash on the
base and at most one leading slash on the path (one stripping pass removes
them all), the composed URL is the base content joined to the path content
with exactly one slash at the join point. -/
theorem joinUrl_amended (baseUrl : Option String) (path : String)
    (hB : (stripOneTrailingSlash (baseUrl.getD "").data).getLast? ≠ some '/')
    (hP : (stripOneLeadingSlash path.data).head? ≠ some '/') :
    joinUrl baseUrl path = claimJoinUrl baseUrl path := by
  unfold joinUrl claimJoinUrl
  rw [stripAll_eq_stripOne_trailing _ hB, stripAll_eq_stripOne_leading _ hP]

/-- C2 witness: the spec example, base with one trailing slash and path with
one leading slash, joins with exactly one slash. -/
theorem joinUrl_amended_witness :
    ((stripOneTrailingSlash ((some "https://api.test/").getD "").data).getLast? ≠
        some '/') ∧
    ((stripOneLeadingSlash ("/v1/x" : String).data).head? ≠ some '/') ∧
    joinUrl (some "https://api.test/") "/v1/x" =
      claimJoinUrl (some "https://api.test/") "/v1/x" :=
  ⟨by decide, by decide,
    joinUrl_amended (some "https://api.test/") "/v1/x" (by decide) (by decide)⟩

/-- C3: evaluation of the timer arming condition of src/index.ts line 141 at
the disputed inputs: an effective timeout of 0 ARMS the timer (contradicting
the source comment on line 142 and the claim), a negative timeout does not,
and the armed timer at 0 fires into an abort and a timeout rejection. -/
theorem timerArmed_at_zero :
    timerArmed 0 = true ∧
    timerArmed (-1) = false ∧
    timerArmed 30000 = true ∧
    timerFireStep (initExecState 0) =
      { timerPending := false, abortCalls := 1, signalAborted := true,
        rejectedTimeout := true } := by decide

/-- C4: the outgoing request of the construction phase is the left fold of
the registered request interceptors, in registration order, over the
assembled initial request; two tag-appending interceptors leave their tags in
registration order. -/
theorem requestFold_order {Params Body : Type} (baseUrl : Option String)
    (serializer : Params → String) (headersObject : List (String × HeaderValue))
    (path : String) (params : Params) (body : Option Body)
    (ints : List (Request Params Body → Request Params Body)) (a b : String) :
    (buildRequestPhase baseUrl serializer headersObject path params body ints =
      ints.foldl (fun r i => i r)
        (initialRequest baseUrl serializer headersObject path params body)) ∧
    ((buildRequestPhase baseUrl serializer headersObject path params body
        [addTagInterceptor a, addTagInterceptor b]).headers =
      buildHeaders headersObject ++ [("tag", a), ("tag", b)]) := by
  refine ⟨rfl, ?_⟩
  simp [buildRequestPhase, initialRequest, addTagInterceptor]

/-- C5: response and error interceptors are side-effect only: the settled
value of executeSettle does not depend on the registered observer lists, and
the side-effect log of an observer chain is the concatenation of the logs of
the interceptors in registration order, each applied to the same value. -/
theorem observers_side_effect_only {D E α : Type}
    (rI eI : List (Response D → List String × Response D)) (o : FetchOutcome D E) :
    ((executeSettle rI eI o).2 = (executeSettle [] [] o).2) ∧
    (∀ (ints : List (α → List String × α)) (x : α),
      runObservers ints x = (ints.map (fun i => (i x).1)).flatten) := by
  refine ⟨?_, fun ints x => runObservers_eq_join ints x⟩
  cases o with
  | fetchFault e => rfl
  | decodeFault s e => rfl
  | completed ok status headers data =>
    by_cases hb : (ok && decide (status < 300) && decide (status ≥ 200)) = true
    · simp [executeSettle, hb]
    · simp [executeSettle, Bool.eq_false_iff.mpr hb]

/-- C6: body decoding selection: an explicit responseType always wins; with
no explicit responseType a Content-Type containing the substring json decodes
as JSON, any other or absent Content-Type decodes as text. -/
theorem selectDecode_spec :
    (∀ ct : Option String,
      selectDecode (some .JSON) ct = .json ∧
      selectDecode (some .FORM_DATA) ct = .formData ∧
      selectDecode (some .TEXT) ct = .text ∧
      selectDecode (some .BLOB) ct = .blob ∧
      selectDecode (some .ARRAY_BUFFER) ct = .arrayBuffer) ∧
    (∀ s : String, containsSub s.data "json".data = true →
      selectDecode none (some s) = .json) ∧
    (∀ s : String, containsSub s.data "json".data = false →
      selectDecode none (some s) = .text) ∧
    selectDecode none none = .text := by
  refine ⟨fun ct => ⟨rfl, rfl, rfl, rfl, rfl⟩, ?_, ?_, rfl⟩
  · intro s h; simp [selectDecode, h]
  · intro s h; simp [selectDecode, h]

/-- C6 witness: a JSON Content-Type with no explicit responseType decodes as
JSON, a non-JSON one as text. -/
theorem selectDecode_spec_witness :
    selectDecode none (some "application/json") = .json ∧
    selectDecode none (some "text/html") = .text :=
  ⟨selectDecode_spec.2.1 "application/json" (by decide),
    selectDecode_spec.2.2.1 "text/html" (by decide)⟩

/-- C7: a fault of the network call or of the body decoding rejects the
handle with the raw fault value and runs no interceptor at all (empty side
effect log); only the completed, status-classified branch runs the error
chain. -/
theorem faults_bypass_error_chain {D E : Type}
    (rI eI : List (Response D → List String × Response D)) (e : E) (status : Nat) :
    executeSettle (D := D) rI eI (.fetchFault e) =
      ([], Settled.rejected (.fault e)) ∧
    executeSettle (D := D) rI eI (.decodeFault status e) =
      ([], Settled.rejected (.fault e)) :=
  ⟨rfl, rfl⟩

/-- C8: cancelling an in-flight call (no prior abort, no timeout rejection)
triggers the abort signal exactly once, clears the pending timer, and the
timer callback afterwards is a no-op: no timeout rejection can fire after
cancellation. -/
theorem cancel_aborts_once_clears_timer (s : ExecState)
    (hcalls : s.abortCalls = 0) (hto : s.rejectedTimeout = false) :
    (cancelStep s).signalAborted = true ∧
    (cancelStep s).abortCalls = 1 ∧
    (cancelStep s).timerPending = false ∧
    timerFireStep (cancelStep s) = cancelStep s ∧
    (timerFireStep (cancelStep s)).rejectedTimeout = false := by
  refine ⟨rfl, by simp [cancelStep, hcalls], rfl, ?_, ?_⟩
  · simp [timerFireStep, cancelStep]
  · simp [timerFireStep, cancelStep, hto]

/-- C8 witness: cancelling right after arming a 50 ms timer. -/
theorem cancel_aborts_once_clears_timer_witness :
    ((initExecState 50).abortCalls = 0 ∧ (initExecState 50).rejectedTimeout = false) ∧
    ((cancelStep (initExecState 50)).signalAborted = true ∧
      (cancelStep (initExecState 50)).abortCalls = 1 ∧
      (cancelStep (initExecState 50)).timerPending = false ∧
      timerFireStep (cancelStep (initExecState 50)) = cancelStep (initExecState 50) ∧
      (timerFireStep (cancelStep (initExecState 50))).rejectedTimeout = false) :=
  ⟨⟨rfl, rfl⟩, cancel_aborts_once_clears_timer (initExecState 50) rfl rfl⟩

/-- C9: the pre-flight check fails with the canceled indication whenever the
signal is aborted (no request reaches the transport), but the signal it reads
belongs to the AbortController constructed inside the same execute call and
nothing aborts it before the check, so the branch is unreachable and execute
always hands the folded request on. -/
theorem preflight_check_unreachable {Params Body : Type} (baseUrl : Option String)
    (serializer : Params → String) (headersObject : List (String × HeaderValue))
    (path : String) (params : Params) (body : Option Body)
    (ints : List (Request Params Body → Request Params Body)) :
    (∀ r : Request Params Body, preflightGuard true r = .error "canceled") ∧
    executePreflight baseUrl serializer headersObject path params body ints =
      .ok (buildRequestPhase baseUrl serializer headersObject path params body ints) :=
  ⟨fun _ => rfl, rfl⟩

/-- C10: the request-construction phase of execute in src/index.ts and the
one of the legacy execute in src/unnamed/part_000 produce the same request
value on every input: header expansion, URL joining, query append and the
interceptor fold agree up to the point the network call is issued. -/
theorem legacy_request_phase_agrees {Params Body : Type} (baseUrl : Option String)
    (serializer : Params → String) (headersObject : List (String × HeaderValue))
    (path : String) (params : Params) (body : Option Body)
    (ints : List (Request Params Body → Request Params Body)) :
    legacyBuildRequestPhase baseUrl serializer headersObject path params body ints =
      buildRequestPhase baseUrl serializer headersObject path params body ints := by
  rfl

end Fetcher



